import Mathlib

/-!
Shallow embedding of the role-filtered navigation builder
(`useMainMenuItems`) of the inventory web application, together with
proofs of the spec's testable properties.

The builder constructs two static menu catalogs (top and bottom), builds
one templated external URL from the current user's profile, and, for
self-service users, filters both catalogs against a fixed exclusion list
of entry keys.  The user profile and the self-service classification are
the two inputs of the hook (`useUserData` / `useUserIsSelfService`) and
are modelled as parameters.
-/

/-- The current user's profile as seen by the menu builder: every field
may be `undefined` in the source, hence `Option`. -/
structure UserData where
  email : Option String := none
  firstName : Option String := none
  lastName : Option String := none
  deriving DecidableEq

/-- JavaScript template-literal interpolation of a possibly-undefined
string value: `undefined` renders as the literal text "undefined". -/
def jsInterp : Option String → String
  | some s => s
  | none => "undefined"

/-- JavaScript truthiness of a possibly-undefined string value:
`undefined` and the empty string are falsy, every other string truthy. -/
def jsTruthy : Option String → Bool
  | some s => !(s == "")
  | none => false

/-- One navigation entry, as in the object literals of the source.
Fields that some entries omit get the source's implicit defaults. -/
structure MenuItem where
  icon : String
  «to» : String
  title : String
  target : Option String := none
  isNew : Bool := false
  «end» : Bool := false
  deriving DecidableEq

/-- The templated `to` of the "Asset labels" entry:
`https://www.shelf.nu/order-tags?email=${user?.email}` followed by
`&firstName=...` / `&lastName=...` only when those fields are truthy. -/
def mkAssetLabelsTo (user : Option UserData) : String :=
  "https://www.shelf.nu/order-tags?email=" ++ jsInterp (user.bind UserData.email) ++
    (if jsTruthy (user.bind UserData.firstName) then
      "&firstName=" ++ jsInterp (user.bind UserData.firstName) else "") ++
    (if jsTruthy (user.bind UserData.lastName) then
      "&lastName=" ++ jsInterp (user.bind UserData.lastName) else "")

/-- The static `menuItemsTop` catalog, in source order. -/
def menuItemsTopCatalog : List MenuItem :=
  [{ icon := "graph", «to» := "dashboard", title := "Dashboard" },
   { icon := "asset", «to» := "assets", title := "Assets" },
   { icon := "kit", «to» := "kits", title := "Kits" },
   { icon := "category", «to» := "categories", title := "Categories" },
   { icon := "tag", «to» := "tags", title := "Tags" },
   { icon := "location", «to» := "locations", title := "Locations" },
   { icon := "calendar", «to» := "calendar", title := "Calendar" },
   { icon := "bookings", «to» := "bookings", title := "Bookings" }]

/-- The static `menuItemsBottom` catalog, in source order; the first
entry's `to` is the templated external URL. -/
def menuItemsBottomCatalog (user : Option UserData) : List MenuItem :=
  [{ icon := "asset-label", «to» := mkAssetLabelsTo user, title := "Asset labels",
     target := some "_blank", isNew := true },
   { icon := "scanQR", «to» := "scanner", title := "QR scanner", «end» := true },
   { icon := "settings", «to» := "settings", title := "Workspace settings", «end» := true }]

/-- The exclusion list applied for self-service users. -/
def itemsToRemove : List String :=
  ["dashboard", "categories", "tags", "locations", "settings"]

/-- `items.filter((item) => !itemsToRemove.includes(item.«to»))` of the
source, abstracted over the exclusion list. -/
def applyExclusion (ex : List String) (items : List MenuItem) : List MenuItem :=
  items.filter fun item => !(ex.contains item.«to»)

/-- The builder's return value. -/
structure MenuModel where
  menuItemsTop : List MenuItem
  menuItemsBottom : List MenuItem
  deriving DecidableEq

/-- The `useMainMenuItems` hook: build both catalogs, then filter both
against `itemsToRemove` exactly when the user is self-service. -/
def useMainMenuItems (user : Option UserData) (isSelfService : Bool) : MenuModel :=
  let menuItemsTop := menuItemsTopCatalog
  let menuItemsBottom := menuItemsBottomCatalog user
  if isSelfService then
    { menuItemsTop := applyExclusion itemsToRemove menuItemsTop,
      menuItemsBottom := applyExclusion itemsToRemove menuItemsBottom }
  else
    { menuItemsTop := menuItemsTop, menuItemsBottom := menuItemsBottom }

/-- The role-based filtering step of the builder in isolation, so that
idempotence can be stated: the filter applied to an already-built model. -/
def restrictForRole (isSelfService : Bool) (m : MenuModel) : MenuModel :=
  if isSelfService then
    { menuItemsTop := applyExclusion itemsToRemove m.menuItemsTop,
      menuItemsBottom := applyExclusion itemsToRemove m.menuItemsBottom }
  else m

/-- The `to` of the first bottom entry (the "Asset labels" entry) of the
unrestricted builder output, i.e. the templated URL actually returned. -/
def assetLabelsTarget (user : Option UserData) : String :=
  (((useMainMenuItems user false).menuItemsBottom).map MenuItem.«to»).headD ""

/-- Whether the character list `pat` occurs at the start of `hay`. -/
def charsStartWith : List Char → List Char → Bool
  | _, [] => true
  | [], _ :: _ => false
  | a :: as, b :: bs => a == b && charsStartWith as bs

/-- Whether the character list `pat` occurs anywhere inside `hay`. -/
def charsContain : List Char → List Char → Bool
  | [], pat => charsStartWith [] pat
  | a :: t, pat => charsStartWith (a :: t) pat || charsContain t pat

/-- Whether the string `pat` occurs as a contiguous substring of `s`. -/
def strContains (s pat : String) : Bool :=
  charsContain s.data pat.data

/-- The concrete profile with all three fields present used as witness
input. -/
def fullProfile : UserData :=
  { email := some "a@b.com", firstName := some "Jo", lastName := some "Doe" }

/-- The concrete profile with only the email field present. -/
def emailOnlyProfile : UserData :=
  { email := some "a@b.com" }

/-- The concrete profile whose name fields are empty strings, used as
witness input. -/
def emptyNamesProfile : UserData :=
  { email := some "a@b.com", firstName := some "", lastName := some "" }

/-- The templated URL always starts with the letter of its literal
prefix, whatever the profile contributes. -/
theorem mkAssetLabelsTo_head (user : Option UserData) :
    (mkAssetLabelsTo user).data.head? = some 'h' := rfl

/-- The templated URL never equals any key of the exclusion list. -/
theorem mkAssetLabelsTo_ne_removed (user : Option UserData) :
    ∀ k ∈ itemsToRemove, mkAssetLabelsTo user ≠ k := by
  intro k hk h
  have hd : (mkAssetLabelsTo user).data.head? = some 'h' := mkAssetLabelsTo_head user
  rw [h] at hd
  simp only [itemsToRemove, List.mem_cons, List.not_mem_nil, or_false] at hk
  rcases hk with rfl | rfl | rfl | rfl | rfl <;> exact absurd hd (by decide)

/-- The templated URL is never a member of the exclusion list. -/
theorem mkAssetLabelsTo_not_mem_removed (user : Option UserData) :
    mkAssetLabelsTo user ∉ itemsToRemove :=
  fun hmem => mkAssetLabelsTo_ne_removed user _ hmem rfl

/-- Filtering the bottom catalog drops exactly the settings entry, for
every profile. -/
theorem applyExclusion_bottom (user : Option UserData) :
    applyExclusion itemsToRemove (menuItemsBottomCatalog user) =
      [{ icon := "asset-label", «to» := mkAssetLabelsTo user, title := "Asset labels",
         target := some "_blank", isNew := true },
       { icon := "scanQR", «to» := "scanner", title := "QR scanner", «end» := true }] := by
  have h1 : "scanner" ∉ itemsToRemove := by decide
  have h2 : "settings" ∈ itemsToRemove := by decide
  simp [applyExclusion, menuItemsBottomCatalog, List.filter_cons,
    mkAssetLabelsTo_not_mem_removed, h1, h2]

/-- Claim C1: for a self-service user with a full profile (email,
firstName and lastName all present), `menuItemsTop` consists exactly of
the entries keyed "assets", "kits", "calendar", "bookings" in catalog
order, and `menuItemsBottom` keeps the asset-label and QR-scanner
entries while excluding the settings entry. -/
theorem claim1_self_service_full_profile (u : UserData) (e f l : String)
    (_he : u.email = some e) (_hf : u.firstName = some f) (_hl : u.lastName = some l) :
    (useMainMenuItems (some u) true).menuItemsTop.map MenuItem.«to» =
      ["assets", "kits", "calendar", "bookings"] ∧
    (useMainMenuItems (some u) true).menuItemsBottom.map MenuItem.title =
      ["Asset labels", "QR scanner"] ∧
    ∀ item ∈ (useMainMenuItems (some u) true).menuItemsBottom, item.«to» ≠ "settings" := by
  have hbot : (useMainMenuItems (some u) true).menuItemsBottom =
      applyExclusion itemsToRemove (menuItemsBottomCatalog (some u)) := rfl
  have htop : (useMainMenuItems (some u) true).menuItemsTop =
      applyExclusion itemsToRemove menuItemsTopCatalog := rfl
  refine ⟨?_, ?_, ?_⟩
  · rw [htop]
    decide
  · rw [hbot, applyExclusion_bottom]
    rfl
  · rw [hbot, applyExclusion_bottom]
    intro item hitem
    simp only [List.mem_cons, List.not_mem_nil, or_false] at hitem
    rcases hitem with rfl | rfl
    · exact mkAssetLabelsTo_ne_removed (some u) "settings" (by decide)
    · decide

/-- Witness for claim C1 at a concrete full profile. -/
theorem claim1_witness :
    (useMainMenuItems (some fullProfile) true).menuItemsTop.map MenuItem.«to» =
      ["assets", "kits", "calendar", "bookings"] ∧
    (useMainMenuItems (some fullProfile) true).menuItemsBottom.map MenuItem.title =
      ["Asset labels", "QR scanner"] ∧
    ∀ item ∈ (useMainMenuItems (some fullProfile) true).menuItemsBottom,
      item.«to» ≠ "settings" :=
  claim1_self_service_full_profile fullProfile "a@b.com" "Jo" "Doe" rfl rfl rfl

/-- Claim C2 counterexample: with the profile absent the asset-labels
target is the base URL with `email=undefined` — the email parameter's
value is the literal text "undefined", not the empty value the claim
states. -/
theorem claim2_counterexample :
    assetLabelsTarget none = "https://www.shelf.nu/order-tags?email=undefined" ∧
    (assetLabelsTarget none == "https://www.shelf.nu/order-tags?email=") = false ∧
    strContains (assetLabelsTarget none) "email=undefined" = true := by decide

/-- Claim C2 (amended): when the profile is absent the builder still
returns normally and the asset-labels target degrades to the base URL
with the email parameter set to the literal string "undefined"
(JavaScript interpolation of `undefined`), with no firstName or lastName
parameters. -/
theorem claim2_absent_profile_degrades :
    useMainMenuItems none false =
      { menuItemsTop := menuItemsTopCatalog, menuItemsBottom := menuItemsBottomCatalog none } ∧
    assetLabelsTarget none = "https://www.shelf.nu/order-tags?email=" ++ "undefined" ∧
    strContains (assetLabelsTarget none) "firstName=" = false ∧
    strContains (assetLabelsTarget none) "lastName=" = false := by
  exact ⟨rfl, by decide, by decide, by decide⟩

/-- Claim C3: for every profile, a non-self-service role returns the
unfiltered static catalogs, same entries in the same order. -/
theorem claim3_non_self_service_unfiltered (user : Option UserData) :
    useMainMenuItems user false =
      { menuItemsTop := menuItemsTopCatalog, menuItemsBottom := menuItemsBottomCatalog user } := rfl

/-- Claim C4: for every profile, under the self-service role no entry of
either returned sequence has its key in the exclusion set. -/
theorem claim4_self_service_excluded_keys (user : Option UserData) (item : MenuItem)
    (h : item ∈ (useMainMenuItems user true).menuItemsTop ∨
         item ∈ (useMainMenuItems user true).menuItemsBottom) :
    item.«to» ∉ ["dashboard", "categories", "tags", "locations", "settings"] := by
  intro hmem
  have hmem' : item.«to» ∈ itemsToRemove := hmem
  rcases h with h | h
  · have hp := (List.mem_filter.mp (show item ∈ List.filter
      (fun i => !(itemsToRemove.contains i.«to»)) menuItemsTopCatalog from h)).2
    simp at hp
    exact hp hmem'
  · have hp := (List.mem_filter.mp (show item ∈ List.filter
      (fun i => !(itemsToRemove.contains i.«to»)) (menuItemsBottomCatalog user) from h)).2
    simp at hp
    exact hp hmem'

/-- Witness for claim C4 at the kits entry of the filtered top menu. -/
theorem claim4_witness :
    MenuItem.«to» { icon := "kit", «to» := "kits", title := "Kits" } ∉
      ["dashboard", "categories", "tags", "locations", "settings"] :=
  claim4_self_service_excluded_keys none
    { icon := "kit", «to» := "kits", title := "Kits" }
    (Or.inl (by decide))

/-- Claim C5: URL templating of the asset-labels entry. With only an
email the target is the base URL plus `email=a@b.com` and carries no
firstName or lastName parameter; with all three fields the target is the
base URL followed by the email, firstName and lastName parameters in
that order. -/
theorem claim5_url_templating :
    assetLabelsTarget (some emailOnlyProfile) =
      "https://www.shelf.nu/order-tags?email=a@b.com" ∧
    strContains (assetLabelsTarget (some emailOnlyProfile)) "email=a@b.com" = true ∧
    strContains (assetLabelsTarget (some emailOnlyProfile)) "firstName=" = false ∧
    strContains (assetLabelsTarget (some emailOnlyProfile)) "lastName=" = false ∧
    assetLabelsTarget (some fullProfile) =
      "https://www.shelf.nu/order-tags?" ++ "email=a@b.com" ++ "&firstName=Jo" ++
        "&lastName=Doe" ∧
    strContains (assetLabelsTarget (some fullProfile)) "email=a@b.com" = true ∧
    strContains (assetLabelsTarget (some fullProfile)) "&firstName=Jo" = true ∧
    strContains (assetLabelsTarget (some fullProfile)) "&lastName=Doe" = true := by
  exact ⟨by decide, by decide, by decide, by decide, by decide, by decide, by decide, by decide⟩

/-- A filter keeping two designated elements splits around them,
exhibiting their relative order in the output. -/
theorem filter_splits_pair (p : MenuItem → Bool) (l₁ l₂ l₃ : List MenuItem)
    (a b : MenuItem) (ha : p a = true) (hb : p b = true) :
    List.filter p (l₁ ++ a :: l₂ ++ b :: l₃) =
      List.filter p l₁ ++ a :: List.filter p l₂ ++ b :: List.filter p l₃ := by
  simp [List.filter_append, List.filter_cons, ha, hb, List.append_assoc]

/-- Claim C6: order preservation. For every role and profile, whenever
`a` precedes `b` in the static catalog (the catalog splits as
`l₁ ++ a :: l₂ ++ b :: l₃`) and both survive filtering, the output
splits the same way around `a` and then `b`. -/
theorem claim6_order_preservation (user : Option UserData) (ss : Bool)
    (a b : MenuItem) (l₁ l₂ l₃ : List MenuItem) :
    (menuItemsTopCatalog = l₁ ++ a :: l₂ ++ b :: l₃ →
      a ∈ (useMainMenuItems user ss).menuItemsTop →
      b ∈ (useMainMenuItems user ss).menuItemsTop →
      ∃ m₁ m₂ m₃, (useMainMenuItems user ss).menuItemsTop = m₁ ++ a :: m₂ ++ b :: m₃) ∧
    (menuItemsBottomCatalog user = l₁ ++ a :: l₂ ++ b :: l₃ →
      a ∈ (useMainMenuItems user ss).menuItemsBottom →
      b ∈ (useMainMenuItems user ss).menuItemsBottom →
      ∃ m₁ m₂ m₃, (useMainMenuItems user ss).menuItemsBottom = m₁ ++ a :: m₂ ++ b :: m₃) := by
  cases ss
  · exact ⟨fun hcat _ _ => ⟨l₁, l₂, l₃, hcat⟩, fun hcat _ _ => ⟨l₁, l₂, l₃, hcat⟩⟩
  · constructor
    · intro hcat hamem hbmem
      have ha := (List.mem_filter.mp (show a ∈ List.filter
        (fun i => !(itemsToRemove.contains i.«to»)) menuItemsTopCatalog from hamem)).2
      have hb := (List.mem_filter.mp (show b ∈ List.filter
        (fun i => !(itemsToRemove.contains i.«to»)) menuItemsTopCatalog from hbmem)).2
      refine ⟨List.filter (fun i => !(itemsToRemove.contains i.«to»)) l₁,
        List.filter (fun i => !(itemsToRemove.contains i.«to»)) l₂,
        List.filter (fun i => !(itemsToRemove.contains i.«to»)) l₃, ?_⟩
      show List.filter (fun i => !(itemsToRemove.contains i.«to»)) menuItemsTopCatalog = _
      rw [hcat]
      exact filter_splits_pair (fun i => !(itemsToRemove.contains i.«to»)) l₁ l₂ l₃ a b ha hb
    · intro hcat hamem hbmem
      have ha := (List.mem_filter.mp (show a ∈ List.filter
        (fun i => !(itemsToRemove.contains i.«to»)) (menuItemsBottomCatalog user) from hamem)).2
      have hb := (List.mem_filter.mp (show b ∈ List.filter
        (fun i => !(itemsToRemove.contains i.«to»)) (menuItemsBottomCatalog user) from hbmem)).2
      refine ⟨List.filter (fun i => !(itemsToRemove.contains i.«to»)) l₁,
        List.filter (fun i => !(itemsToRemove.contains i.«to»)) l₂,
        List.filter (fun i => !(itemsToRemove.contains i.«to»)) l₃, ?_⟩
      show List.filter (fun i => !(itemsToRemove.contains i.«to»)) (menuItemsBottomCatalog user) = _
      rw [hcat]
      exact filter_splits_pair (fun i => !(itemsToRemove.contains i.«to»)) l₁ l₂ l₃ a b ha hb

/-- Witness for claim C6: in the filtered top menu the assets entry
still precedes the kits entry. -/
theorem claim6_witness :
    ∃ m₁ m₂ m₃, (useMainMenuItems none true).menuItemsTop =
      m₁ ++ { icon := "asset", «to» := "assets", title := "Assets" } ::
        m₂ ++ { icon := "kit", «to» := "kits", title := "Kits" } :: m₃ :=
  (claim6_order_preservation none true
    { icon := "asset", «to» := "assets", title := "Assets" }
    { icon := "kit", «to» := "kits", title := "Kits" }
    [{ icon := "graph", «to» := "dashboard", title := "Dashboard" }] []
    [{ icon := "category", «to» := "categories", title := "Categories" },
     { icon := "tag", «to» := "tags", title := "Tags" },
     { icon := "location", «to» := "locations", title := "Locations" },
     { icon := "calendar", «to» := "calendar", title := "Calendar" },
     { icon := "bookings", «to» := "bookings", title := "Bookings" }]).1
    (by decide) (by decide) (by decide)

/-- Claim C7: exclusion filtering keeps exactly the entries whose key is
not in the set, matched by exact string equality, and an exclusion key
matching no entry of the sequence is a no-op. -/
theorem claim7_exact_match_and_dangling_keys (ex : List String) (l : List MenuItem)
    (k : String) :
    (∀ item, item ∈ applyExclusion ex l ↔ item ∈ l ∧ item.«to» ∉ ex) ∧
    ((∀ item ∈ l, item.«to» ≠ k) → applyExclusion (k :: ex) l = applyExclusion ex l) := by
  constructor
  · intro item
    simp [applyExclusion, List.mem_filter]
  · intro h
    unfold applyExclusion
    apply List.filter_congr
    intro item hitem
    have hne : item.«to» ≠ k := h item hitem
    have hbeq : (item.«to» == k) = false := beq_eq_false_iff_ne.mpr hne
    simp [List.contains_cons, hbeq, hne]

/-- Witness for claim C7: the dangling key "dashboard" is a no-op on the
bottom catalog, and the scanner entry survives because its key is
outside the exclusion list. -/
theorem claim7_witness :
    applyExclusion ("dashboard" :: itemsToRemove) (menuItemsBottomCatalog none) =
      applyExclusion itemsToRemove (menuItemsBottomCatalog none) ∧
    ({ icon := "scanQR", «to» := "scanner", title := "QR scanner", «end» := true } ∈
        applyExclusion itemsToRemove (menuItemsBottomCatalog none) ↔
      { icon := "scanQR", «to» := "scanner", title := "QR scanner", «end» := true } ∈
        menuItemsBottomCatalog none ∧ "scanner" ∉ itemsToRemove) :=
  ⟨(claim7_exact_match_and_dangling_keys itemsToRemove (menuItemsBottomCatalog none)
      "dashboard").2 (by decide),
   (claim7_exact_match_and_dangling_keys itemsToRemove (menuItemsBottomCatalog none)
      "dashboard").1
     { icon := "scanQR", «to» := "scanner", title := "QR scanner", «end» := true }⟩

/-- Claim C8: the role-based filter is idempotent — restricting the
builder's output again for the same role changes nothing. -/
theorem claim8_filter_idempotent (user : Option UserData) (ss : Bool) :
    restrictForRole ss (useMainMenuItems user ss) = useMainMenuItems user ss := by
  cases ss
  · rfl
  · have h : ∀ l : List MenuItem,
        applyExclusion itemsToRemove (applyExclusion itemsToRemove l) =
          applyExclusion itemsToRemove l := by
      intro l
      simp [applyExclusion, List.filter_filter, Bool.and_self]
    show ({ menuItemsTop := applyExclusion itemsToRemove (applyExclusion itemsToRemove menuItemsTopCatalog), menuItemsBottom := applyExclusion itemsToRemove (applyExclusion itemsToRemove (menuItemsBottomCatalog user)) } : MenuModel) = _
    rw [h, h]
    rfl

/-- Claim C9: totality. For every profile (absent or with any subset of
fields) and either role classification the builder returns a definite
model of fixed shape, and the non-self-service role yields the
unrestricted catalogs. -/
theorem claim9_totality (user : Option UserData) (ss : Bool) :
    (useMainMenuItems user ss).menuItemsTop.length = (if ss then 4 else 8) ∧
    (useMainMenuItems user ss).menuItemsBottom.length = (if ss then 2 else 3) ∧
    useMainMenuItems user false =
      { menuItemsTop := menuItemsTopCatalog, menuItemsBottom := menuItemsBottomCatalog user } := by
  refine ⟨?_, ?_, rfl⟩
  · cases ss
    · rfl
    · rfl
  · cases ss
    · rfl
    · rw [show (useMainMenuItems user true).menuItemsBottom =
          applyExclusion itemsToRemove (menuItemsBottomCatalog user) from rfl,
        applyExclusion_bottom]
      rfl

/-- Claim C10: an empty-string name field is falsy, so it contributes no
query parameter — the asset-labels target is the same as with the field
absent. -/
theorem claim10_empty_name_fields (u : UserData) :
    (u.firstName = some "" →
      assetLabelsTarget (some u) =
        assetLabelsTarget (some { email := u.email, firstName := none, lastName := u.lastName })) ∧
    (u.lastName = some "" →
      assetLabelsTarget (some u) =
        assetLabelsTarget (some { email := u.email, firstName := u.firstName, lastName := none })) := by
  obtain ⟨em, fn, ln⟩ := u
  constructor
  · intro h
    cases h
    rfl
  · intro h
    cases h
    rfl

/-- Witness for claim C10 at a concrete profile with empty-string name
fields. -/
theorem claim10_witness :
    assetLabelsTarget (some emptyNamesProfile) =
      assetLabelsTarget (some { email := some "a@b.com", firstName := none, lastName := some "" }) ∧
    assetLabelsTarget (some emptyNamesProfile) =
      assetLabelsTarget (some { email := some "a@b.com", firstName := some "", lastName := none }) :=
  ⟨(claim10_empty_name_fields emptyNamesProfile).1 rfl,
   (claim10_empty_name_fields emptyNamesProfile).2 rfl⟩
